import Mathlib

/-!
Verification of the TrendFlix search-and-trending data-synchronization flow.

This file is a shallow embedding of the two source modules the specification
describes:
  * `src/appwrite.js` — the Analytics Store wrapper (`updateSearchCount`,
    `getTrendingMovies`) over a hosted document database;
  * `src/App.jsx` — the Search Orchestrator (`fetchMovies`,
    `loadTrendingMovies`) that sequences the catalog fetch, the UI state
    updates and the analytics calls.

The document database is modelled as an explicit list of records plus a
fresh-id counter, with a `failing` flag that makes every primitive fail (the
transport/database failure the spec talks about).  JavaScript `undefined` is
modelled by `Option`, a thrown exception by `Except.error`, and the orchestrator
cycle is modelled as the ordered list of React state updates it issues, so that
ordering claims ("clear `isLoading` last") can be stated.
-/

namespace TrendFlix

/-- The slice of a TMDB movie object that the code consumes
(`id`, `title`, `poster_path`). -/
structure Movie where
  id : Nat
  title : String
  poster_path : String
deriving Repr, DecidableEq

/-- A persisted search-count document of the Appwrite collection.
`docId` models the Appwrite `$id` of the document. -/
structure SearchRecord where
  docId : Nat
  searchTerm : String
  count : Nat
  movie_id : Nat
  poster_url : String
deriving Repr, DecidableEq

/-- The state of the external document store: the documents of the collection
in collection order, a counter supplying fresh document ids (`ID.unique()`),
and a flag that makes every transport/database primitive fail. -/
structure StoreDB where
  docs : List SearchRecord
  nextId : Nat
  failing : Bool
deriving Repr, DecidableEq

/-- A partial document update as passed to Appwrite `updateDocument`:
only the fields that are present in the patch are written. -/
structure DocPatch where
  patchTerm : Option String
  patchCount : Option Nat
  patchMovieId : Option Nat
  patchPosterUrl : Option String
deriving Repr, DecidableEq

/-- Apply a partial update to one document: fields absent from the patch
keep their stored value. -/
def applyPatch (r : SearchRecord) (p : DocPatch) : SearchRecord :=
  { r with
    searchTerm := p.patchTerm.getD r.searchTerm
    count := p.patchCount.getD r.count
    movie_id := p.patchMovieId.getD r.movie_id
    poster_url := p.patchPosterUrl.getD r.poster_url }

/-- `database.listDocuments(DATABASE_ID, COLLECTION_ID, [Query.equal('searchTerm', t)])`:
returns the documents whose `searchTerm` field equals `t` exactly, in
collection order; fails when the transport/database fails. -/
def listDocumentsByTerm (db : StoreDB) (t : String) : Except String (List SearchRecord) :=
  if db.failing then Except.error "StoreError"
  else Except.ok (db.docs.filter (fun r => r.searchTerm == t))

/-- `database.updateDocument(DATABASE_ID, COLLECTION_ID, docId, patch)`:
applies the patch to every document whose `$id` equals `docId`;
fails when the transport/database fails. -/
def updateDocument (db : StoreDB) (docId : Nat) (p : DocPatch) : Except String StoreDB :=
  if db.failing then Except.error "StoreError"
  else Except.ok { db with docs := db.docs.map (fun r => if r.docId == docId then applyPatch r p else r) }

/-- `database.createDocument(DATABASE_ID, COLLECTION_ID, ID.unique(), data)`:
appends a new document with a fresh id; fails when the transport/database
fails. -/
def createDocument (db : StoreDB) (r : SearchRecord) : Except String StoreDB :=
  if db.failing then Except.error "StoreError"
  else Except.ok { db with docs := db.docs ++ [r], nextId := db.nextId + 1 }

/-- The fixed image-host template applied to a movie poster path:
`https://image.tmdb.org/t/p/w500${movie.poster_path}`. -/
def posterUrlOf (m : Movie) : String :=
  "https://image.tmdb.org/t/p/w500" ++ m.poster_path

/-- `updateSearchCount(searchTerm, movie)` from `src/appwrite.js`.
Looks up the documents matching the term; if one exists, rewrites the first
match with `count: doc.count + 1`; otherwise creates a document
`{searchTerm, count: 1, movie_id: movie.id, poster_url: template(movie.poster_path)}`.
The whole body is wrapped in `try/catch` whose handler only logs, so the
function itself always returns normally (`Except.ok`), leaving the store
unchanged when a primitive failed. -/
def updateSearchCount (db : StoreDB) (searchTerm : String) (movie : Movie) : Except String StoreDB :=
  let attempt : Except String StoreDB :=
    match listDocumentsByTerm db searchTerm with
    | Except.error e => Except.error e
    | Except.ok documents =>
      match documents with
      | doc :: _ =>
        updateDocument db doc.docId ⟨none, some (doc.count + 1), none, none⟩
      | [] =>
        createDocument db ⟨db.nextId, searchTerm, 1, movie.id, posterUrlOf movie⟩
  match attempt with
  | Except.ok db2 => Except.ok db2
  | Except.error _ => Except.ok db

/-- `database.listDocuments(DATABASE_ID, COLLECTION_ID, [Query.limit(5), Query.orderDesc("count")])`:
the documents sorted by `count` descending (ties by store-default order,
modelled as stable sort on collection order), limited to 5. -/
def listDocumentsTrending (db : StoreDB) : Except String (List SearchRecord) :=
  if db.failing then Except.error "StoreError"
  else Except.ok ((db.docs.insertionSort (fun a b => b.count ≤ a.count)).take 5)

/-- `getTrendingMovies()` from `src/appwrite.js`.  On success returns the
document list; the `catch` handler only logs, so on a primitive failure the
function returns normally with JavaScript `undefined`, modelled as
`Except.ok none`. -/
def getTrendingMovies (db : StoreDB) : Except String (Option (List SearchRecord)) :=
  match listDocumentsTrending db with
  | Except.ok documents => Except.ok (some documents)
  | Except.error _ => Except.ok none

/-! ### The Search Orchestrator (`src/App.jsx`) -/

/-- JavaScript string truthiness composed with `||`:
`o || d` yields `d` when `o` is `undefined` or the empty string. -/
def jsOrElse (o : Option String) (d : String) : String :=
  match o with
  | some s => if s = "" then d else s
  | none => d

/-- The uppercase hexadecimal digit of a value below 16. -/
def hexDigitChar (n : Nat) : Char :=
  if n < 10 then Char.ofNat (48 + n) else Char.ofNat (55 + n)

/-- The UTF-8 byte sequence of a Unicode code point. -/
def utf8BytesOfCode (n : Nat) : List Nat :=
  if n < 0x80 then [n]
  else if n < 0x800 then
    [0xC0 ||| (n >>> 6), 0x80 ||| (n &&& 0x3F)]
  else if n < 0x10000 then
    [0xE0 ||| (n >>> 12), 0x80 ||| ((n >>> 6) &&& 0x3F), 0x80 ||| (n &&& 0x3F)]
  else
    [0xF0 ||| (n >>> 18), 0x80 ||| ((n >>> 12) &&& 0x3F),
     0x80 ||| ((n >>> 6) &&& 0x3F), 0x80 ||| (n &&& 0x3F)]

/-- `%XY` percent-encoding of one byte, uppercase hex. -/
def percentEncodeByte (b : Nat) : List Char :=
  [Char.ofNat 37, hexDigitChar (b / 16), hexDigitChar (b % 16)]

/-- Whether `encodeURIComponent` leaves the character as-is:
ASCII letters, digits, and `- _ . ! ~ * ' ( )`. -/
def isUnreservedURIChar (c : Char) : Bool :=
  (65 ≤ c.toNat && c.toNat ≤ 90) || (97 ≤ c.toNat && c.toNat ≤ 122) ||
  (48 ≤ c.toNat && c.toNat ≤ 57) ||
  c = Char.ofNat 45 || c = Char.ofNat 95 || c = Char.ofNat 46 ||
  c = Char.ofNat 33 || c = Char.ofNat 126 || c = Char.ofNat 42 ||
  c = Char.ofNat 39 || c = Char.ofNat 40 || c = Char.ofNat 41

/-- JavaScript `encodeURIComponent`: unreserved characters pass through,
every other character is percent-encoded byte-by-byte in UTF-8. -/
def encodeURIComponent (s : String) : String :=
  String.mk (s.data.flatMap (fun c =>
    if isUnreservedURIChar c then [c]
    else (utf8BytesOfCode c.toNat).flatMap percentEncodeByte))

/-- The endpoint chosen by `fetchMovies`:
`query ? search?query=encodeURIComponent(query) : discover`
(a string is truthy exactly when it is non-empty). -/
def endpoint (query : String) : String :=
  if query = "" then "https://api.themoviedb.org/3/discover/movie"
  else "https://api.themoviedb.org/3/search/movie?query=" ++ encodeURIComponent query

/-- The message thrown for a non-success HTTP status and used as the in-band
fallback: `'Failed to fetch movies'`. -/
def inBandFallbackMsg : String := "Failed to fetch movies"

/-- The message set by the `catch` handler of `fetchMovies`. -/
def fetchCatchMsg : String := "Error fetching movies. Please try again later."

/-- The JSON body of a transport-successful catalog response, restricted to
the fields the code reads: `Response`, `Error` (both possibly absent, modelled
as `Option`) and the `results` array (possibly absent). -/
structure ApiPayload where
  response : Option String
  errField : Option String
  results : Option (List Movie)
deriving Repr, DecidableEq

/-- What the network interaction of one `fetchMovies` run produced:
the `fetch` itself threw, the response had a non-success status
(`response.ok` false), `response.json()` threw, or a parsed payload. -/
inductive CatalogResponse where
  | netError : CatalogResponse
  | notOk : CatalogResponse
  | parseError : CatalogResponse
  | payload : ApiPayload → CatalogResponse
deriving Repr, DecidableEq

/-- One React state update issued by `fetchMovies`. -/
inductive StateUpdate where
  | setIsLoading : Bool → StateUpdate
  | setErrorMessage : String → StateUpdate
  | setMovieList : List Movie → StateUpdate
deriving Repr, DecidableEq

/-- The orchestrator state touched by the search cycle. -/
structure AppState where
  movieList : List Movie
  errorMessage : String
  isLoading : Bool
deriving Repr, DecidableEq

/-- Apply one state update. -/
def applyUpdate (s : AppState) (u : StateUpdate) : AppState :=
  match u with
  | StateUpdate.setIsLoading b => { s with isLoading := b }
  | StateUpdate.setErrorMessage m => { s with errorMessage := m }
  | StateUpdate.setMovieList l => { s with movieList := l }

/-- Everything observable about one `fetchMovies` run: the ordered list of
state updates it issued, the `updateSearchCount` calls it made (term and
first result), and the resulting store state. -/
structure FetchOutcome where
  updates : List StateUpdate
  recordCalls : List (String × Movie)
  finalDb : StoreDB
deriving Repr, DecidableEq

/-- The `try`/`catch` body of `fetchMovies(query)` from `src/App.jsx`, for one
catalog response `resp`: the state updates it issues (in order), the
`updateSearchCount` calls it makes, and the resulting store state.

Mirrors the source control flow: a thrown fetch / non-ok status / thrown parse all land in the
`catch`, which sets the generic message; a payload with `Response === 'false'`
sets `data.Error || fallback` and clears the list; otherwise
`setMovieList(data.results || [])`, and when `query` is truthy,
`data.results.length` is read — a `TypeError` when `results` is absent, caught
by the same `catch` — and when positive, `updateSearchCount(query,
data.results[0])` runs inside its own swallowing `try/catch`; the `finally`
always issues `setIsLoading(false)` last. -/
def fetchMoviesTry (db : StoreDB) (query : String) (resp : CatalogResponse) :
    List StateUpdate × List (String × Movie) × StoreDB :=
  match resp with
    | CatalogResponse.netError => ([StateUpdate.setErrorMessage fetchCatchMsg], [], db)
    | CatalogResponse.notOk => ([StateUpdate.setErrorMessage fetchCatchMsg], [], db)
    | CatalogResponse.parseError => ([StateUpdate.setErrorMessage fetchCatchMsg], [], db)
    | CatalogResponse.payload p =>
      if p.response = some "false" then
        ([StateUpdate.setErrorMessage (jsOrElse p.errField inBandFallbackMsg),
          StateUpdate.setMovieList []], [], db)
      else
        let listUpd := StateUpdate.setMovieList (p.results.getD [])
        if query = "" then
          ([listUpd], [], db)
        else
          match p.results with
          | none =>
            ([listUpd, StateUpdate.setErrorMessage fetchCatchMsg], [], db)
          | some [] =>
            ([listUpd], [], db)
          | some (m :: _) =>
            match updateSearchCount db query m with
            | Except.ok db2 => ([listUpd], [(query, m)], db2)
            | Except.error _ => ([listUpd], [(query, m)], db)

/-- `fetchMovies(query)` assembled: the two opening updates, the updates of the
`try`/`catch` body, and the `finally` update `setIsLoading(false)` last. -/
def fetchMovies (db : StoreDB) (query : String) (resp : CatalogResponse) : FetchOutcome :=
  let step := fetchMoviesTry db query resp
  { updates := [StateUpdate.setIsLoading true, StateUpdate.setErrorMessage ""]
      ++ step.1 ++ [StateUpdate.setIsLoading false]
    recordCalls := step.2.1
    finalDb := step.2.2 }

/-- The orchestrator state touched by the trending load cycle.
`trendingMovies` is `none` when the JavaScript state variable holds
`undefined`. -/
structure TrendingState where
  trendingMovies : Option (List SearchRecord)
  isTrendingLoading : Bool
deriving Repr, DecidableEq

/-- `loadTrendingMovies()` from `src/App.jsx`: start the spinner, store
whatever `getTrendingMovies` returned, log on a thrown error, and clear the
spinner in the `finally`. -/
def loadTrendingMovies (db : StoreDB) (s : TrendingState) : TrendingState :=
  let s1 := { s with isTrendingLoading := true }
  match getTrendingMovies db with
  | Except.ok movies => { s1 with trendingMovies := movies, isTrendingLoading := false }
  | Except.error _ => { s1 with isTrendingLoading := false }

/-! ### Concrete fixtures used by witnesses and counterexamples -/

/-- The first result of the spec scenario: `{id:1, title:"Batman", poster_path:"/x.jpg"}`. -/
def movieBatman : Movie := ⟨1, "Batman", "/x.jpg"⟩

/-- An empty, healthy store. -/
def emptyDb : StoreDB := ⟨[], 0, false⟩

/-- An empty store whose transport/database fails. -/
def failingDb : StoreDB := ⟨[], 0, true⟩

/-- A failing store that already holds one record. -/
def failingDb2 : StoreDB := ⟨[⟨0, "a", 1, 1, "u"⟩], 1, true⟩

/-- A healthy store holding a `batman` record and one other record. -/
def twoRecordDb : StoreDB := ⟨[⟨5, "batman", 3, 7, "u"⟩, ⟨6, "other", 1, 8, "v"⟩], 9, false⟩

/-! ### Helper lemmas -/

/-- JavaScript `o || d` is non-empty whenever the fallback `d` is. -/
theorem jsOrElse_ne_empty (o : Option String) (d : String) (hd : d ≠ "") :
    jsOrElse o d ≠ "" := by
  cases o with
  | none => simpa [jsOrElse] using hd
  | some s =>
    by_cases hs : s = "" <;> simp [jsOrElse, hs, hd]

/-- `updateSearchCount` when the term lookup finds `doc` first: the document
with `doc`'s id is rewritten with `count := doc.count + 1` and nothing else
changes. -/
theorem updateSearchCount_found (db : StoreDB) (t : String) (m : Movie)
    (hf : db.failing = false) (doc : SearchRecord) (rest : List SearchRecord)
    (hfind : db.docs.filter (fun r => r.searchTerm == t) = doc :: rest) :
    updateSearchCount db t m
      = Except.ok { db with docs := db.docs.map (fun r => if r.docId == doc.docId then { r with count := doc.count + 1 } else r) } := by
  simp [updateSearchCount, listDocumentsByTerm, updateDocument, hf, hfind, applyPatch]

/-- `updateSearchCount` when the term lookup finds nothing: a fresh document
`{searchTerm := t, count := 1, movie_id := m.id, poster_url := template m}` is
appended. -/
theorem updateSearchCount_fresh (db : StoreDB) (t : String) (m : Movie)
    (hf : db.failing = false)
    (hfind : db.docs.filter (fun r => r.searchTerm == t) = []) :
    updateSearchCount db t m
      = Except.ok { db with
          docs := db.docs ++ [⟨db.nextId, t, 1, m.id, posterUrlOf m⟩]
          nextId := db.nextId + 1 } := by
  simp [updateSearchCount, listDocumentsByTerm, createDocument, hf, hfind]

/-- Rewriting `count` of the documents with a given id commutes with
filtering by `searchTerm`. -/
theorem filter_term_map_setCount (tgt c : Nat) (t : String) (l : List SearchRecord) :
    (l.map (fun r => if r.docId == tgt then { r with count := c } else r)).filter
        (fun r => r.searchTerm == t)
      = (l.filter (fun r => r.searchTerm == t)).map
          (fun r => if r.docId == tgt then { r with count := c } else r) := by
  have hterm : ∀ a : SearchRecord,
      (if a.docId == tgt then { a with count := c } else a).searchTerm = a.searchTerm := by
    intro a
    by_cases hid : a.docId = tgt <;> simp [hid]
  induction l with
  | nil => rfl
  | cons a l ih =>
    simp only [List.map_cons, List.filter_cons, hterm a]
    by_cases ht : (a.searchTerm == t) = true
    · rw [if_pos ht, if_pos ht, List.map_cons, ih]
    · rw [if_neg ht, if_neg ht, ih]

/-- Rewriting `count` of the documents with a given id leaves the
`(searchTerm, movie_id, poster_url)` projection of the list unchanged. -/
theorem map_proj_map_setCount (tgt c : Nat) (l : List SearchRecord) :
    (l.map (fun r => if r.docId == tgt then { r with count := c } else r)).map
        (fun r => (r.searchTerm, r.movie_id, r.poster_url))
      = l.map (fun r => (r.searchTerm, r.movie_id, r.poster_url)) := by
  rw [List.map_map]
  apply List.map_congr_left
  intro a _
  by_cases hid : a.docId = tgt <;> simp [hid]

/-- Rewriting `count` of the documents with a given id acts pointwise on the
`count` projection of the list. -/
theorem map_count_map_setCount (tgt c : Nat) (l : List SearchRecord) :
    (l.map (fun r => if r.docId == tgt then { r with count := c } else r)).map
        (fun r => r.count)
      = l.map (fun r => if r.docId == tgt then c else r.count) := by
  rw [List.map_map]
  apply List.map_congr_left
  intro a _
  by_cases hid : a.docId = tgt <;> simp [hid]

/-! ### Claims -/

/-- C1, counterexample: on a transport failure (`fetch` threw) the search
cycle does NOT clear `results`: starting from a state whose `movieList` is
`[movieBatman]`, the run ends with `movieList` still `[movieBatman]`, not
empty, so the claim "every catalog failure clears `results`" is false. -/
theorem claim_C1_counterexample :
    ((fetchMovies emptyDb "batman" CatalogResponse.netError).updates.foldl applyUpdate
        ⟨[movieBatman], "", false⟩).movieList = [movieBatman]
    ∧ [movieBatman] ≠ ([] : List Movie) :=
  ⟨rfl, by decide⟩

/-- C1, amended: only in-band payload failures clear `results` and set a
non-empty message; transport non-success and thrown parse/network errors set
the non-empty generic message but leave `results` unchanged. -/
theorem claim_C1_amended (db : StoreDB) (q : String) (resp : CatalogResponse) (s : AppState) :
    ((resp = CatalogResponse.netError ∨ resp = CatalogResponse.notOk ∨
        resp = CatalogResponse.parseError) →
      ((fetchMovies db q resp).updates.foldl applyUpdate s).movieList = s.movieList
      ∧ ((fetchMovies db q resp).updates.foldl applyUpdate s).errorMessage = fetchCatchMsg
      ∧ fetchCatchMsg ≠ "")
    ∧ (∀ p : ApiPayload, resp = CatalogResponse.payload p → p.response = some "false" →
      ((fetchMovies db q resp).updates.foldl applyUpdate s).movieList = []
      ∧ ((fetchMovies db q resp).updates.foldl applyUpdate s).errorMessage ≠ "") := by
  constructor
  · intro h
    rcases h with h | h | h <;> subst h <;>
      simp [fetchMovies, fetchMoviesTry, applyUpdate, fetchCatchMsg]
  · intro p hp hfalse
    subst hp
    simp only [fetchMovies, fetchMoviesTry, if_pos hfalse]
    refine ⟨by simp [applyUpdate], ?_⟩
    simpa [applyUpdate] using
      jsOrElse_ne_empty p.errField inBandFallbackMsg (by simp [inBandFallbackMsg])

/-- C1, witness for the amended claim at concrete inputs: a non-ok status
leaves the previous `movieList` in place, while an in-band failure clears it. -/
theorem claim_C1_amended_witness :
    ((fetchMovies emptyDb "q" CatalogResponse.notOk).updates.foldl applyUpdate
        ⟨[movieBatman], "", false⟩).movieList = [movieBatman]
    ∧ ((fetchMovies emptyDb "q"
          (CatalogResponse.payload ⟨some "false", none, none⟩)).updates.foldl applyUpdate
        ⟨[movieBatman], "", false⟩).movieList = [] := by
  constructor
  · exact ((claim_C1_amended emptyDb "q" CatalogResponse.notOk
      ⟨[movieBatman], "", false⟩).1 (Or.inr (Or.inl rfl))).1
  · exact ((claim_C1_amended emptyDb "q" (CatalogResponse.payload ⟨some "false", none, none⟩)
      ⟨[movieBatman], "", false⟩).2 ⟨some "false", none, none⟩ rfl rfl).1

/-- C2, counterexample: on a store whose transport fails, both operations
return normally — `updateSearchCount` with the store unchanged and
`getTrendingMovies` with `undefined` — so no `StoreError` propagates to the
orchestrator, contrary to the claim. -/
theorem claim_C2_counterexample :
    updateSearchCount failingDb "batman" movieBatman = Except.ok failingDb
    ∧ getTrendingMovies failingDb = Except.ok none :=
  ⟨rfl, rfl⟩

/-- C2, amended: on every transport/database failure both Analytics Store
operations catch the failure internally (only logging it): `updateSearchCount`
returns normally with the store unchanged and `getTrendingMovies` returns
normally with `undefined`; no error reaches the orchestrator. -/
theorem claim_C2_amended (db : StoreDB) (t : String) (m : Movie) (hf : db.failing = true) :
    updateSearchCount db t m = Except.ok db
    ∧ getTrendingMovies db = Except.ok none := by
  constructor
  · simp [updateSearchCount, listDocumentsByTerm, hf]
  · simp [getTrendingMovies, listDocumentsTrending, hf]

/-- C2, witness: the amended claim at a concrete failing store that already
holds a record. -/
theorem claim_C2_amended_witness :
    updateSearchCount failingDb2 "a" movieBatman = Except.ok failingDb2
    ∧ getTrendingMovies failingDb2 = Except.ok none :=
  claim_C2_amended failingDb2 "a" movieBatman rfl

/-- C3, code bug, evaluated at the failing input: when the underlying store
call fails, `getTrendingMovies` swallows the error and returns `undefined`
(contradicting its own doc comment, which promises an `Array`), and
`loadTrendingMovies` stores that `undefined` into the trending state — the
state changes from `some []` to `none` instead of being left unchanged.  The
spinner flag is still cleared on exit. -/
theorem claim_C3_bug :
    loadTrendingMovies failingDb ⟨some [], false⟩ = ⟨none, false⟩
    ∧ (none : Option (List SearchRecord)) ≠ some [] :=
  ⟨rfl, by decide⟩

/-- C4: `updateSearchCount` looks the record up by exact `searchTerm` match;
if one exists it rewrites that record with `count + 1`, otherwise it appends a
new record with `count = 1`, `movie_id = movie.id` and `poster_url` the fixed
image-host template of the movie's poster path; hence two sequential calls
with the same fresh term leave exactly one record for the term, with
`count = 2`. -/
theorem claim_C4 (db : StoreDB) (t : String) (m m2 : Movie) (hf : db.failing = false) :
    (∀ doc rest, db.docs.filter (fun r => r.searchTerm == t) = doc :: rest →
      updateSearchCount db t m
        = Except.ok { db with docs := db.docs.map (fun r => if r.docId == doc.docId then { r with count := doc.count + 1 } else r) })
    ∧ (db.docs.filter (fun r => r.searchTerm == t) = [] →
      updateSearchCount db t m
        = Except.ok { db with docs := db.docs ++ [⟨db.nextId, t, 1, m.id, posterUrlOf m⟩], nextId := db.nextId + 1 }
      ∧ Except.map (fun dbEnd => dbEnd.docs.filter (fun r => r.searchTerm == t))
          ((updateSearchCount db t m).bind (fun dbMid => updateSearchCount dbMid t m2))
        = Except.ok [⟨db.nextId, t, 2, m.id, posterUrlOf m⟩]) := by
  refine ⟨fun doc rest hfind => updateSearchCount_found db t m hf doc rest hfind,
    fun hfind => ?_⟩
  have h1 := updateSearchCount_fresh db t m hf hfind
  refine ⟨h1, ?_⟩
  rw [h1]
  show Except.map _ (updateSearchCount _ t m2) = _
  have hfilter1 :
      (db.docs ++ [(⟨db.nextId, t, 1, m.id, posterUrlOf m⟩ : SearchRecord)]).filter
        (fun r => r.searchTerm == t) = [⟨db.nextId, t, 1, m.id, posterUrlOf m⟩] := by
    simp [List.filter_append, hfind]
  have h2 := updateSearchCount_found
    { db with docs := db.docs ++ [⟨db.nextId, t, 1, m.id, posterUrlOf m⟩], nextId := db.nextId + 1 }
    t m2 hf ⟨db.nextId, t, 1, m.id, posterUrlOf m⟩ [] hfilter1
  rw [h2]
  simp only [Except.map]
  congr 1
  rw [filter_term_map_setCount, hfilter1]
  simp

/-- C4, witness: on an empty store, the first `batman` call creates the record
with `count = 1` and the template poster url, and a second call leaves exactly
one `batman` record with `count = 2`. -/
theorem claim_C4_witness :
    updateSearchCount emptyDb "batman" movieBatman
      = Except.ok ⟨[⟨0, "batman", 1, 1, "https://image.tmdb.org/t/p/w500/x.jpg"⟩], 1, false⟩
    ∧ Except.map (fun dbEnd => dbEnd.docs.filter (fun r => r.searchTerm == "batman"))
        ((updateSearchCount emptyDb "batman" movieBatman).bind
          (fun dbMid => updateSearchCount dbMid "batman" movieBatman))
      = Except.ok [⟨0, "batman", 2, 1, "https://image.tmdb.org/t/p/w500/x.jpg"⟩] := by
  have h := (claim_C4 emptyDb "batman" movieBatman movieBatman rfl).2 rfl
  exact ⟨h.1.trans rfl, h.2.trans rfl⟩

/-- C9: when the lookup finds an existing record, the update changes only
`count` (of the found record): every document keeps its `searchTerm`,
`movie_id` and `poster_url`, and only documents with the found record's id
get `count` set to `doc.count + 1`. -/
theorem claim_C9 (db : StoreDB) (t : String) (m : Movie) (hf : db.failing = false)
    (doc : SearchRecord) (rest : List SearchRecord)
    (hfind : db.docs.filter (fun r => r.searchTerm == t) = doc :: rest) :
    Except.map (fun dbEnd => dbEnd.docs.map (fun r => (r.searchTerm, r.movie_id, r.poster_url)))
        (updateSearchCount db t m)
      = Except.ok (db.docs.map (fun r => (r.searchTerm, r.movie_id, r.poster_url)))
    ∧ Except.map (fun dbEnd => dbEnd.docs.map (fun r => r.count)) (updateSearchCount db t m)
      = Except.ok (db.docs.map (fun r => if r.docId == doc.docId then doc.count + 1 else r.count)) := by
  rw [updateSearchCount_found db t m hf doc rest hfind]
  constructor
  · simp only [Except.map]
    congr 1
    exact map_proj_map_setCount doc.docId (doc.count + 1) db.docs
  · simp only [Except.map]
    congr 1
    exact map_count_map_setCount doc.docId (doc.count + 1) db.docs

/-- C9, witness: on a store with a `batman` record (id 5, count 3, movie 7,
poster `u`) and one other record, the update leaves all terms, movie ids and
poster urls unchanged and the counts become `[4, 1]`. -/
theorem claim_C9_witness :
    Except.map (fun dbEnd => dbEnd.docs.map (fun r => (r.searchTerm, r.movie_id, r.poster_url)))
        (updateSearchCount twoRecordDb "batman" movieBatman)
      = Except.ok [("batman", 7, "u"), ("other", 8, "v")]
    ∧ Except.map (fun dbEnd => dbEnd.docs.map (fun r => r.count))
        (updateSearchCount twoRecordDb "batman" movieBatman)
      = Except.ok [4, 1] := by
  have h := claim_C9 twoRecordDb "batman" movieBatman rfl ⟨5, "batman", 3, 7, "u"⟩
    [] (by decide)
  exact ⟨h.1.trans rfl, h.2.trans rfl⟩

/-- C5: in a search cycle whose catalog call succeeds (transport-successful
payload without in-band failure), exactly one `updateSearchCount(query,
results[0])` call is made when the query and the result list are both
non-empty; zero calls are made when the result list is empty or the query is
empty (even with non-empty results). -/
theorem claim_C5 (db : StoreDB) (q : String) (p : ApiPayload)
    (hok : p.response ≠ some "false") :
    (∀ m rest, q ≠ "" → p.results = some (m :: rest) →
      (fetchMovies db q (CatalogResponse.payload p)).recordCalls = [(q, m)])
    ∧ (p.results = some [] → (fetchMovies db q (CatalogResponse.payload p)).recordCalls = [])
    ∧ (q = "" → (fetchMovies db q (CatalogResponse.payload p)).recordCalls = []) := by
  refine ⟨?_, ?_, ?_⟩
  · intro m rest hq hres
    simp only [fetchMovies, fetchMoviesTry, if_neg hok, if_neg hq, hres]
    cases h : updateSearchCount db q m <;> simp [h]
  · intro hres
    by_cases hq : q = "" <;> simp [fetchMovies, fetchMoviesTry, hok, hres, hq]
  · intro hq
    simp [fetchMovies, fetchMoviesTry, hok, hq]

/-- C5, witness: a successful `batman` search with one result makes exactly
the call `("batman", movieBatman)`; an empty result list, or an empty query
with results, makes none. -/
theorem claim_C5_witness :
    (fetchMovies emptyDb "batman"
        (CatalogResponse.payload ⟨none, none, some [movieBatman]⟩)).recordCalls
      = [("batman", movieBatman)]
    ∧ (fetchMovies emptyDb "batman"
        (CatalogResponse.payload ⟨none, none, some []⟩)).recordCalls = []
    ∧ (fetchMovies emptyDb ""
        (CatalogResponse.payload ⟨none, none, some [movieBatman]⟩)).recordCalls = [] := by
  refine ⟨?_, ?_, ?_⟩
  · exact (claim_C5 emptyDb "batman" ⟨none, none, some [movieBatman]⟩
      (by decide)).1 movieBatman [] (by decide) rfl
  · exact (claim_C5 emptyDb "batman" ⟨none, none, some []⟩ (by decide)).2.1 rfl
  · exact (claim_C5 emptyDb "" ⟨none, none, some [movieBatman]⟩ (by decide)).2.2 rfl

/-- C6, counterexample: with payload `{Response:"false", Error:""}` the
`Error` field is present, yet the displayed message is the generic fallback
`'Failed to fetch movies'`, not the (empty) `Error` field — the claim's
"equals the payload's Error field when present" fails for a present-but-empty
field, because the code uses JavaScript `||`. -/
theorem claim_C6_counterexample :
    (⟨some "false", some "", none⟩ : ApiPayload).errField = some ""
    ∧ ((fetchMovies emptyDb "q"
          (CatalogResponse.payload ⟨some "false", some "", none⟩)).updates.foldl applyUpdate
        ⟨[], "", false⟩).errorMessage = inBandFallbackMsg
    ∧ inBandFallbackMsg ≠ "" :=
  ⟨rfl, rfl, by decide⟩

/-- C6, amended: on an in-band failure (`Response` equal to `"false"`),
`results` becomes empty and the displayed message is the `Error` field when
present and non-empty, otherwise the generic fallback `'Failed to fetch
movies'`; the message is never empty. -/
theorem claim_C6_amended (db : StoreDB) (q : String) (p : ApiPayload) (s : AppState)
    (hfail : p.response = some "false") :
    ((fetchMovies db q (CatalogResponse.payload p)).updates.foldl applyUpdate s).movieList = []
    ∧ ((fetchMovies db q (CatalogResponse.payload p)).updates.foldl applyUpdate s).errorMessage
        = jsOrElse p.errField inBandFallbackMsg
    ∧ ((fetchMovies db q (CatalogResponse.payload p)).updates.foldl applyUpdate
        s).errorMessage ≠ "" := by
  refine ⟨?_, ?_, ?_⟩
  · simp [fetchMovies, fetchMoviesTry, hfail, applyUpdate]
  · simp [fetchMovies, fetchMoviesTry, hfail, applyUpdate]
  · simp only [fetchMovies, fetchMoviesTry, if_pos hfail]
    simpa [applyUpdate] using
      jsOrElse_ne_empty p.errField inBandFallbackMsg (by simp [inBandFallbackMsg])

/-- C6, witness: the spec scenario — payload
`{Response:"false", Error:"no results"}` yields empty `results` and the
displayed message `"no results"`. -/
theorem claim_C6_amended_witness :
    ((fetchMovies emptyDb "batman"
        (CatalogResponse.payload ⟨some "false", some "no results", some []⟩)).updates.foldl
      applyUpdate ⟨[movieBatman], "x", true⟩).movieList = []
    ∧ ((fetchMovies emptyDb "batman"
        (CatalogResponse.payload ⟨some "false", some "no results", some []⟩)).updates.foldl
      applyUpdate ⟨[movieBatman], "x", true⟩).errorMessage = "no results" := by
  have h := claim_C6_amended emptyDb "batman" ⟨some "false", some "no results", some []⟩
    ⟨[movieBatman], "x", true⟩ rfl
  exact ⟨h.1, h.2.1.trans rfl⟩

/-- C7: `fetchMovies` uses the discover endpoint exactly when the query is
empty, and otherwise the search endpoint with the query URL-escaped by
`encodeURIComponent` as its `query` parameter. -/
theorem claim_C7 (q : String) :
    (endpoint q = "https://api.themoviedb.org/3/discover/movie" ↔ q = "")
    ∧ (q ≠ "" →
      endpoint q = "https://api.themoviedb.org/3/search/movie?query=" ++ encodeURIComponent q) := by
  constructor
  · constructor
    · intro h
      by_contra hq
      simp only [endpoint, if_neg hq] at h
      have hlen := congrArg String.length h
      rw [String.length_append] at hlen
      have h1 : ("https://api.themoviedb.org/3/search/movie?query=" : String).length = 48 := rfl
      have h2 : ("https://api.themoviedb.org/3/discover/movie" : String).length = 43 := rfl
      rw [h1, h2] at hlen
      omega
    · intro h
      simp [endpoint, h]
  · intro hq
    simp [endpoint, hq]

/-- C7, witness: the empty query maps to the discover endpoint, and the query
`"a b"` maps to the search endpoint with `a%20b` as its parameter. -/
theorem claim_C7_witness :
    endpoint "" = "https://api.themoviedb.org/3/discover/movie"
    ∧ endpoint "a b" = "https://api.themoviedb.org/3/search/movie?query=a%20b" := by
  constructor
  · exact (claim_C7 "").1.2 rfl
  · have h := (claim_C7 "a b").2 (by decide)
    rw [h]
    rfl

/-- C8: every search cycle, on every exit path, issues
`setIsLoading(false)` as its last state update, so the folded final state
always has `isLoading = false`. -/
theorem claim_C8 (db : StoreDB) (q : String) (resp : CatalogResponse) :
    (fetchMovies db q resp).updates.getLast? = some (StateUpdate.setIsLoading false)
    ∧ ∀ s : AppState, ((fetchMovies db q resp).updates.foldl applyUpdate s).isLoading = false := by
  have hshape : (fetchMovies db q resp).updates
      = ([StateUpdate.setIsLoading true, StateUpdate.setErrorMessage ""]
          ++ (fetchMoviesTry db q resp).1) ++ [StateUpdate.setIsLoading false] := by
    simp [fetchMovies]
  constructor
  · rw [hshape, List.getLast?_concat]
  · intro s
    rw [hshape, List.foldl_append]
    simp [applyUpdate]

/-- C10: a transport-successful payload without a `results` array and without
in-band failure leaves `results` empty via the `|| []` fallback; with a
non-empty query the subsequent `data.results.length` read throws, the thrown
`TypeError` is caught by the transport-error handler, and the generic fetch
error message is set. -/
theorem claim_C10 (db : StoreDB) (q : String) (p : ApiPayload) (s : AppState)
    (hok : p.response ≠ some "false") (hres : p.results = none) :
    ((fetchMovies db q (CatalogResponse.payload p)).updates.foldl applyUpdate s).movieList = []
    ∧ (q ≠ "" →
      ((fetchMovies db q (CatalogResponse.payload p)).updates.foldl applyUpdate s).errorMessage
        = fetchCatchMsg) := by
  by_cases hq : q = "" <;>
    simp [fetchMovies, fetchMoviesTry, hok, hres, hq, applyUpdate]

/-- C10, witness: a payload with no `results` array and a non-empty query
ends with empty `results` and the generic fetch error message. -/
theorem claim_C10_witness :
    ((fetchMovies emptyDb "batman"
        (CatalogResponse.payload ⟨none, none, none⟩)).updates.foldl applyUpdate
      ⟨[movieBatman], "", false⟩).movieList = []
    ∧ ((fetchMovies emptyDb "batman"
        (CatalogResponse.payload ⟨none, none, none⟩)).updates.foldl applyUpdate
      ⟨[movieBatman], "", false⟩).errorMessage = fetchCatchMsg := by
  have h := claim_C10 emptyDb "batman" ⟨none, none, none⟩ ⟨[movieBatman], "", false⟩
    (by decide) rfl
  exact ⟨h.1, h.2 (by decide)⟩

end TrendFlix
